import Mathlib

/-!
Verification of the Taskonaut session-bookkeeping logic.

The development shallowly embeds the session store (`src/core/json_database.py`),
the daily-evaluation sheet builder (`src/core/excel_report_manager.py`), the
configuration loaders (`src/core/config_manager.py` and
`JsonDatabase.load_config`) and the quick-switch auto-split logic
(`src/gui/beautiful_clean_overlay.py`).

Modelling conventions:
* timestamps at the store level are naive local times viewed as whole seconds
  since the epoch (`Nat`); `datetime.date()` bucketing becomes division by
  86400; `int((b - a).total_seconds())` becomes integer subtraction, which is
  exact at whole-second granularity;
* Python floats used by the report arithmetic are modelled as exact rationals;
* `datetime.now()`, `uuid.uuid4()` and the millisecond id clock are
  nondeterministic inputs and are passed as explicit arguments;
* the serialization layer (claim about `to_dict`/`from_dict`) keeps calendar
  datetimes as a record of components together with executable `isoformat` /
  `fromisoformat` text conversions.
-/

/-- One session record, mirroring the `TimeSession` dataclass of
`src/core/json_database.py` with timestamps viewed as epoch seconds. -/
structure Session where
  id : String
  start_time : Nat
  end_time : Option Nat
  project : String
  task : String
  duration_seconds : Int
  is_active : Bool
  session_type : String
  note : String := ""
deriving DecidableEq, Repr

/-- The slice of `JsonDatabase` state the verified operations touch: the
session list, the `projects_data` fields (`recent_combinations`,
`active_project`, `active_task`) and the `auto_split_minutes` config entry
(`none` models an absent key). -/
structure Store where
  sessions : List Session
  recent_combinations : List String
  active_project : String
  active_task : String
  auto_split_minutes : Option ℚ
deriving DecidableEq, Repr

/-- Embeds `session.start_time.date()` bucketing: the calendar day of an epoch-second
timestamp. -/
def dateOf (t : Nat) : Nat := t / 86400

/-- Embeds `JsonDatabase.update_recent_combination` (json_database.py:313-326):
format `"{project} - {task}"`, remove an existing identical entry, insert at
the front, keep only the first 10. -/
def update_recent_combination (recent : List String) (project task : String) :
    List String :=
  let combination := project ++ " - " ++ task
  let recent' := if combination ∈ recent then recent.erase combination else recent
  (combination :: recent').take 10

/-- Embeds `JsonDatabase.create_session` (json_database.py:215-230): append a fresh
active session (`end_time = None`, `duration_seconds = 0`) and update the
recent combinations.  The generated uuid and `datetime.now()` are passed in. -/
def create_session (st : Store) (now : Nat) (newId project task session_type : String) :
    Store × Session :=
  let session : Session :=
    { id := newId, start_time := now, end_time := none, project := project,
      task := task, duration_seconds := 0, is_active := true,
      session_type := session_type, note := "" }
  ({ st with sessions := st.sessions ++ [session],
             recent_combinations :=
               update_recent_combination st.recent_combinations project task },
   session)

/-- Embeds `JsonDatabase.get_active_session` (json_database.py:232-237): the first
session with `is_active`. -/
def get_active_session (sessions : List Session) : Option Session :=
  sessions.find? (fun s => s.is_active)

/-- Closing a session as `stop_active_session` does: `end_time = now`,
`is_active = False`, `duration_seconds = int((end - start).total_seconds())`. -/
def closeSession (s : Session) (now : Nat) : Session :=
  { s with end_time := some now, is_active := false,
           duration_seconds := (now : Int) - (s.start_time : Int) }

/-- In-place mutation of the first active session, as Python's mutation of the
object returned by `get_active_session` acts on the stored list. -/
def stopFirstActive : List Session → Nat → List Session × Option Session
  | [], _ => ([], none)
  | s :: rest, now =>
    if s.is_active then
      let s' := closeSession s now
      (s' :: rest, some s')
    else
      let (r, o) := stopFirstActive rest now
      (s :: r, o)

/-- Embeds `JsonDatabase.stop_active_session` (json_database.py:239-248): find the
first active session, close it, return it; return `None` when none is
active. -/
def stop_active_session (st : Store) (now : Nat) : Store × Option Session :=
  let (sessions', ret) := stopFirstActive st.sessions now
  ({ st with sessions := sessions' }, ret)

/-- Embeds `JsonDatabase.get_today_sessions` (json_database.py:250-261): keep the
sessions whose start date is today, optionally filter by `session_type`, and
sort by `start_time`. -/
def get_today_sessions (sessions : List Session) (today : Nat)
    (session_type : Option String) : List Session :=
  let filtered := sessions.filter (fun s =>
    dateOf s.start_time == today &&
      match session_type with
      | none => true
      | some ty => s.session_type == ty)
  filtered.mergeSort (fun a b => a.start_time ≤ b.start_time)

/-- The per-session contribution used by both daily accumulators
(json_database.py:268-274 and 288-293): a closed session contributes its
stored `duration_seconds`, an active one contributes `now - start_time`, and
a session that is neither closed nor active contributes nothing. -/
def sessionSeconds (s : Session) (now : Nat) : Int :=
  match s.end_time with
  | some _ => s.duration_seconds
  | none => if s.is_active then (now : Int) - (s.start_time : Int) else 0

/-- Embeds `JsonDatabase.get_today_work_seconds` (json_database.py:263-276): sum the
contributions of today's sessions with `session_type == 'work'`. -/
def get_today_work_seconds (sessions : List Session) (today now : Nat) : Int :=
  ((get_today_sessions sessions today (some "work")).map
    (fun s => sessionSeconds s now)).sum

/-- Embeds `JsonDatabase.get_today_break_seconds` (json_database.py:278-295): sum the
contributions of today's sessions with `session_type == 'break'` OR
`project == 'BREAK'`. -/
def get_today_break_seconds (sessions : List Session) (today now : Nat) : Int :=
  ((sessions.filter (fun s =>
      dateOf s.start_time == today &&
        (s.session_type == "break" || s.project == "BREAK"))).map
    (fun s => sessionSeconds s now)).sum

/-- Embeds `JsonDatabase.add_session` (json_database.py:446-483): build a session
from explicit fields; with an end time the duration is computed and the
session is closed, otherwise it is active with no end time.  The id is
`"session_" ++ <millisecond timestamp>`, passed in as `now_ms`. -/
def add_session (st : Store) (now_ms : Nat) (start_time : Nat)
    (end_time : Option Nat) (project task session_type note : String) :
    Store × Session :=
  let session_id := "session_" ++ toString now_ms
  let duration_seconds : Int :=
    match end_time with
    | some e => (e : Int) - (start_time : Int)
    | none => 0
  let is_active := end_time.isNone
  let s : Session :=
    { id := session_id, start_time := start_time, end_time := end_time,
      project := project, task := task, duration_seconds := duration_seconds,
      is_active := is_active, session_type := session_type, note := note }
  ({ st with sessions := st.sessions ++ [s] }, s)

/-- Embeds `JsonDatabase.remove_session` (json_database.py:503-518): pop the first
session whose id matches and report `True`; report `False` and leave the list
alone when no id matches. -/
def remove_session : List Session → String → List Session × Bool
  | [], _ => ([], false)
  | s :: rest, sid =>
    if s.id == sid then (rest, true)
    else
      let (r, b) := remove_session rest sid
      (s :: r, b)

/-- Embeds `JsonDatabase.set_active_project_task` (json_database.py:343-348): record
the active project/task and update the recent combinations. -/
def set_active_project_task (st : Store) (project task : String) : Store :=
  { st with active_project := project, active_task := task,
            recent_combinations :=
              update_recent_combination st.recent_combinations project task }

/-- In-place mutation of the first active session's `project`/`task` fields,
as the below-threshold branch of `quick_switch_project` performs on the object
returned by `get_active_session`. -/
def updateFirstActive : List Session → String → String → List Session
  | [], _, _ => []
  | s :: rest, p, t =>
    if s.is_active then { s with project := p, task := t } :: rest
    else s :: updateFirstActive rest p t

/-- Embeds `BeautifulCleanOverlay.quick_switch_project`
(beautiful_clean_overlay.py:1147-1203), session-state part: with an active
session running for at least `auto_split_minutes` (config default 5) minutes,
stop it and create a new session for the new project/task (`'break'` type for
project `"BREAK"`, else `'work'`); below the threshold, mutate the active
session's project/task in place.  Finally `set_active_project_task` runs in
every path. -/
def quick_switch_project (st : Store) (now : Nat) (newId project task : String) :
    Store :=
  let active := get_active_session st.sessions
  let auto_split_minutes : ℚ := st.auto_split_minutes.getD 5
  let should_split :=
    match active with
    | some a =>
      decide (auto_split_minutes ≤ (((now : Int) - (a.start_time : Int) : Int) : ℚ) / 60)
    | none => false
  let st' :=
    if should_split then
      let st1 := (stop_active_session st now).1
      let session_type := if project == "BREAK" then "break" else "work"
      (create_session st1 now newId project task session_type).1
    else
      match active with
      | some _ => { st with sessions := updateFirstActive st.sessions project task }
      | none => st
  set_active_project_task st' project task

/-! ### Daily evaluation sheet (`ExcelReportManager._evaluation_sheet`) -/

/-- One day bucket of `_evaluation_sheet` holds only sessions with an end
time (excel_report_manager.py:91-94). -/
def closedSessions (sessions : List Session) : List Session :=
  sessions.filter (fun s => s.end_time.isSome)

/-- Embeds `(x.end_time - x.start_time).total_seconds() / 3600` for a closed session
(excel_report_manager.py:103-104); an open session never reaches this code. -/
def sessionHours (s : Session) : ℚ :=
  match s.end_time with
  | some e => ((e : Int) - (s.start_time : Int) : Int) / 3600
  | none => 0

/-- Work hours of a day row (excel_report_manager.py:101,103): closed sessions
with `session_type != 'break'` and `project != 'BREAK'`. -/
def eval_work_hours (day_sessions : List Session) : ℚ :=
  (((closedSessions day_sessions).filter (fun s =>
      !(s.session_type == "break") && !(s.project == "BREAK"))).map
    sessionHours).sum

/-- Break hours of a day row (excel_report_manager.py:102,104): closed
sessions with `session_type == 'break'` or `project == 'BREAK'`. -/
def eval_break_hours (day_sessions : List Session) : ℚ :=
  (((closedSessions day_sessions).filter (fun s =>
      s.session_type == "break" || s.project == "BREAK")).map
    sessionHours).sum

/-- Target lookup for a day row (excel_report_manager.py:111-113):
`config_data.get('work_hours', {}).get(weekday_name, 8.0)`, modelled with the
`work_hours` section as an association list. -/
def eval_target (work_hours_config : List (String × ℚ)) (weekday_name : String) : ℚ :=
  (work_hours_config.lookup weekday_name).getD 8

/-- Status classification of a day row (excel_report_manager.py:116-121). -/
def eval_status (work_h target : ℚ) : String :=
  if work_h = 0 then "⭕ No work"
  else if work_h ≥ target then "✅ Target reached"
  else "❌ Below target"

/-! ### Configuration loaders -/

/-- Outcome of reading a JSON file: absent, unreadable/malformed, or a parsed
document. -/
inductive ReadResult (α : Type) where
  | missing
  | malformed
  | ok (doc : α)
deriving DecidableEq, Repr

/-- The part of a `ConfigManager` document its loader inspects: presence of
the required keys `work_hours` and `excel_file`
(config_manager.py:86-91). -/
structure CMConfig where
  has_work_hours : Bool
  has_excel_file : Bool
deriving DecidableEq, Repr

/-- The default document built by `ConfigManager._create_default_config`
(config_manager.py:93-133) carries both required keys. -/
def cm_default : CMConfig := { has_work_hours := true, has_excel_file := true }

/-- Embeds `ConfigManager._validate_config` (config_manager.py:86-91): raise unless
both required keys are present. -/
def cm_validate (c : CMConfig) : Bool := c.has_work_hours && c.has_excel_file

/-- Embeds `ConfigManager.load_config` (config_manager.py:20-40) as a function of
the file-read outcome, returning the in-memory document and whether the
default document was persisted (`_create_default_config` ends in
`save_config`). -/
def cm_load_config : ReadResult CMConfig → CMConfig × Bool
  | ReadResult.missing => (cm_default, true)
  | ReadResult.malformed => (cm_default, true)
  | ReadResult.ok c => if cm_validate c then (c, false) else (cm_default, true)

/-- The part of a `JsonDatabase` config document its loader touches: the
`auto_split_minutes` key (`none` = absent). -/
structure JDConfig where
  auto_split_minutes : Option ℚ
deriving DecidableEq, Repr

/-- The default document of `JsonDatabase.load_config`
(json_database.py:166-185) sets `auto_split_minutes` to 5. -/
def jdb_default : JDConfig := { auto_split_minutes := some 5 }

/-- Embeds `JsonDatabase.load_config` (json_database.py:187-201) as a function of
the file-read outcome: a present file gets `auto_split_minutes` injected when
missing and is never persisted; a missing file yields the default document
followed by `save_config()`; a malformed file (the `except` branch) yields the
default document in memory with NO save. -/
def jdb_load_config : ReadResult JDConfig → JDConfig × Bool
  | ReadResult.missing => (jdb_default, true)
  | ReadResult.malformed => (jdb_default, false)
  | ReadResult.ok c =>
    ({ auto_split_minutes := some (c.auto_split_minutes.getD 5) }, false)

/-! ### Serialization layer (`TimeSession.to_dict` / `TimeSession.from_dict`)

For the round-trip claim the timestamps are kept as calendar datetimes
(`datetime` component records) with executable `isoformat` and
`fromisoformat` conversions. -/

/-- A naive Python `datetime`: calendar components, no timezone. -/
structure PyDateTime where
  year : Nat
  month : Nat
  day : Nat
  hour : Nat
  minute : Nat
  second : Nat
  microsecond : Nat
deriving DecidableEq, Repr

/-- Gregorian leap-year rule used by `datetime`'s day validation. -/
def isLeapYear (y : Nat) : Bool := (y % 4 == 0 && y % 100 != 0) || y % 400 == 0

/-- Days in a month, as `datetime`'s constructor validates them. -/
def daysInMonth (y m : Nat) : Nat :=
  if m = 2 then (if isLeapYear y then 29 else 28)
  else if m = 4 ∨ m = 6 ∨ m = 9 ∨ m = 11 then 30
  else 31

/-- The component ranges `datetime(...)` accepts (MINYEAR = 1,
MAXYEAR = 9999). -/
def ValidDT (d : PyDateTime) : Prop :=
  1 ≤ d.year ∧ d.year ≤ 9999 ∧ 1 ≤ d.month ∧ d.month ≤ 12 ∧
  1 ≤ d.day ∧ d.day ≤ daysInMonth d.year d.month ∧
  d.hour ≤ 23 ∧ d.minute ≤ 59 ∧ d.second ≤ 59 ∧ d.microsecond ≤ 999999

instance (d : PyDateTime) : Decidable (ValidDT d) := by
  unfold ValidDT; infer_instance

/-- Zero-padded fixed-width decimal rendering, most significant digit first:
`padDigits w n` is Python's `'%0wd' % n` for `n < 10 ^ w`. -/
def padDigits : Nat → Nat → List Char
  | 0, _ => []
  | w + 1, n => Nat.digitChar (n / 10 ^ w) :: padDigits w (n % 10 ^ w)

/-- Embeds `datetime.isoformat()` for a naive datetime:
`YYYY-MM-DDTHH:MM:SS` plus `.ffffff` exactly when `microsecond` is
nonzero. -/
def isoformat (d : PyDateTime) : String :=
  let base :=
    padDigits 4 d.year ++ '-' :: padDigits 2 d.month ++ '-' :: padDigits 2 d.day ++
    'T' :: padDigits 2 d.hour ++ ':' :: padDigits 2 d.minute ++ ':' :: padDigits 2 d.second
  String.mk (if d.microsecond = 0 then base else base ++ '.' :: padDigits 6 d.microsecond)

/-- Decimal digit value of a character, `none` for a non-digit. -/
def digitVal (c : Char) : Option Nat :=
  if '0' ≤ c ∧ c ≤ '9' then some (c.toNat - 48) else none

/-- Parse exactly `w` decimal digits into `acc` carried forward. -/
def parseFixed : Nat → Nat → List Char → Option (Nat × List Char)
  | acc, 0, cs => some (acc, cs)
  | _, _ + 1, [] => none
  | acc, w + 1, c :: cs =>
    match digitVal c with
    | some d => parseFixed (acc * 10 + d) w cs
    | none => none

/-- Consume one expected separator character. -/
def expectChar (c : Char) : List Char → Option (List Char)
  | [] => none
  | c' :: cs => if c' = c then some cs else none

/-- The optional fractional-seconds suffix: nothing (microsecond 0) or a dot
followed by exactly six digits. -/
def parseUsec : List Char → Option Nat
  | [] => some 0
  | '.' :: rest =>
    (parseFixed 0 6 rest).bind fun (us, rest') =>
      if rest' = [] then some us else none
  | _ => none

/-- Embeds `datetime.fromisoformat` on the texts `isoformat` emits: fixed-width
date and time fields, an optional 6-digit fraction, and the constructor's
range validation. -/
def fromisoChars (cs : List Char) : Option PyDateTime :=
  (parseFixed 0 4 cs).bind fun (y, cs) =>
  (expectChar '-' cs).bind fun cs =>
  (parseFixed 0 2 cs).bind fun (mo, cs) =>
  (expectChar '-' cs).bind fun cs =>
  (parseFixed 0 2 cs).bind fun (d, cs) =>
  (expectChar 'T' cs).bind fun cs =>
  (parseFixed 0 2 cs).bind fun (h, cs) =>
  (expectChar ':' cs).bind fun cs =>
  (parseFixed 0 2 cs).bind fun (mi, cs) =>
  (expectChar ':' cs).bind fun cs =>
  (parseFixed 0 2 cs).bind fun (sec, cs) =>
  (parseUsec cs).bind fun usec =>
  let dt : PyDateTime :=
    { year := y, month := mo, day := d, hour := h, minute := mi,
      second := sec, microsecond := usec }
  if ValidDT dt then some dt else none

/-- Embeds `datetime.fromisoformat` on a string. -/
def fromisoformat (s : String) : Option PyDateTime := fromisoChars s.data

/-- The `TimeSession` dataclass of json_database.py:16-27 at serialization
fidelity: timestamps are calendar datetimes. -/
structure TimeSession where
  id : String
  start_time : PyDateTime
  end_time : Option PyDateTime
  project : String
  task : String
  duration_seconds : Int
  is_active : Bool
  session_type : String
  note : String := ""
deriving DecidableEq, Repr

/-- The dictionary written to `sessions.json` (keys of
`TimeSession.to_dict`). -/
structure SessionDict where
  id : String
  start_time : String
  end_time : Option String
  project : String
  task : String
  duration_seconds : Int
  is_active : Bool
  session_type : String
  note : String
deriving DecidableEq, Repr

/-- Embeds `TimeSession.to_dict` (json_database.py:29-41): timestamps via
`isoformat`, `end_time` mapped to `None` when absent. -/
def TimeSession.to_dict (s : TimeSession) : SessionDict :=
  { id := s.id, start_time := isoformat s.start_time,
    end_time := s.end_time.map isoformat, project := s.project, task := s.task,
    duration_seconds := s.duration_seconds, is_active := s.is_active,
    session_type := s.session_type, note := s.note }

/-- Embeds `TimeSession.from_dict` (json_database.py:43-56): timestamps via
`fromisoformat`; a failing parse (a raising `fromisoformat`) is `none`. -/
def TimeSession.from_dict (d : SessionDict) : Option TimeSession :=
  (fromisoformat d.start_time).bind fun st =>
  (match d.end_time with
   | none => some none
   | some es => (fromisoformat es).map some).bind fun et =>
  some { id := d.id, start_time := st, end_time := et, project := d.project,
         task := d.task, duration_seconds := d.duration_seconds,
         is_active := d.is_active, session_type := d.session_type,
         note := d.note }

/-- A closed work-typed session tagged with the sentinel project `"BREAK"`:
it is counted by the work accumulator (its `session_type` is `'work'`) and
again by the break accumulator (its `project` is `'BREAK'`). -/
def doubleCountedSession : Session :=
  ⟨"a", 0, some 100, "BREAK", "t", 100, false, "work", ""⟩

/-- A day consisting of one closed break session: its work hours are 0. -/
def breakOnlyDay : List Session :=
  [⟨"b", 0, some 3600, "BREAK", "lunch", 3600, false, "break", ""⟩]

/-! ## Helper lemmas -/

theorem stopFirstActive_cons (s : Session) (rest : List Session) (now : Nat) :
    stopFirstActive (s :: rest) now =
      if s.is_active then (closeSession s now :: rest, some (closeSession s now))
      else (s :: (stopFirstActive rest now).1, (stopFirstActive rest now).2) := by
  by_cases h : s.is_active <;> simp [stopFirstActive, h]

theorem stopFirstActive_of_no_active (l : List Session) (now : Nat)
    (h : ∀ s ∈ l, s.is_active = false) : stopFirstActive l now = (l, none) := by
  induction l with
  | nil => rfl
  | cons s rest ih =>
    have hs : s.is_active = false := h s (List.mem_cons_self s rest)
    rw [stopFirstActive_cons, if_neg (by simp [hs]),
        ih (fun t ht => h t (List.mem_cons_of_mem s ht))]

theorem stopFirstActive_found (a : List Session) (x : Session) (b : List Session)
    (now : Nat) (hx : x.is_active = true) (ha : ∀ s ∈ a, s.is_active = false) :
    stopFirstActive (a ++ x :: b) now =
      (a ++ closeSession x now :: b, some (closeSession x now)) := by
  induction a with
  | nil => simp [stopFirstActive_cons, hx]
  | cons s rest ih =>
    have hs : s.is_active = false := ha s (List.mem_cons_self s rest)
    rw [List.cons_append, stopFirstActive_cons, if_neg (by simp [hs]),
        ih (fun t ht => ha t (List.mem_cons_of_mem s ht))]
    rfl

theorem get_active_session_found (a : List Session) (x : Session) (b : List Session)
    (hx : x.is_active = true) (ha : ∀ s ∈ a, s.is_active = false) :
    get_active_session (a ++ x :: b) = some x := by
  induction a with
  | nil => simp [get_active_session, List.find?_cons, hx]
  | cons s rest ih =>
    have hs : s.is_active = false := ha s (List.mem_cons_self s rest)
    rw [List.cons_append, get_active_session, List.find?_cons_of_neg _ (by simp [hs])]
    exact ih (fun t ht => ha t (List.mem_cons_of_mem s ht))

theorem updateFirstActive_found (a : List Session) (x : Session) (b : List Session)
    (p t : String) (hx : x.is_active = true) (ha : ∀ s ∈ a, s.is_active = false) :
    updateFirstActive (a ++ x :: b) p t =
      a ++ { x with project := p, task := t } :: b := by
  induction a with
  | nil => simp [updateFirstActive, hx]
  | cons s rest ih =>
    have hs : s.is_active = false := ha s (List.mem_cons_self s rest)
    rw [List.cons_append, updateFirstActive, if_neg (by simp [hs]),
        ih (fun u hu => ha u (List.mem_cons_of_mem s hu))]
    rfl

theorem sessionSeconds_of_closed (s : Session) (now : Nat)
    (h : s.end_time.isSome = true) : sessionSeconds s now = s.duration_seconds := by
  cases he : s.end_time with
  | none => rw [he] at h; simp at h
  | some e => simp [sessionSeconds, he]

/-- Sorting by start time does not change the summed seconds: the work
accumulator equals the sum over the unsorted filtered list. -/
theorem get_today_work_seconds_eq_filter (sessions : List Session) (today now : Nat) :
    get_today_work_seconds sessions today now =
      ((sessions.filter (fun s =>
          dateOf s.start_time == today && s.session_type == "work")).map
        (fun s => sessionSeconds s now)).sum := by
  exact List.Perm.sum_eq (List.Perm.map _ (List.mergeSort_perm _ _))

/-! ## Claims -/

/-- C3: when the store already holds an active session, `create_session`
appends a fresh active session with no end time, leaves all stored sessions
(in particular the active one) untouched, and the resulting store holds at
least two simultaneously active sessions: the store does not enforce
exclusivity. -/
theorem create_session_no_exclusivity (st : Store) (now : Nat)
    (newId project task ty : String) (a : Session)
    (ha : a ∈ st.sessions) (hact : a.is_active = true) :
    (create_session st now newId project task ty).2.is_active = true ∧
    (create_session st now newId project task ty).2.end_time = none ∧
    (create_session st now newId project task ty).1.sessions =
      st.sessions ++ [(create_session st now newId project task ty).2] ∧
    2 ≤ ((create_session st now newId project task ty).1.sessions.filter
          (fun s => s.is_active)).length := by
  refine ⟨rfl, rfl, rfl, ?_⟩
  have hmem : a ∈ st.sessions.filter (fun s => s.is_active) :=
    List.mem_filter.mpr ⟨ha, hact⟩
  have hpos : 0 < (st.sessions.filter (fun s => s.is_active)).length :=
    List.length_pos_of_mem hmem
  simp only [create_session, List.filter_append, List.length_append]
  simp
  omega

/-- C3 witness: a store with one active session gains a second active
session. -/
theorem create_session_no_exclusivity_witness :
    (create_session ⟨[⟨"x", 0, none, "P", "T", 0, true, "work", ""⟩], [], "P", "T", none⟩
        60 "y" "Q" "U" "work").2.is_active = true ∧
    (create_session ⟨[⟨"x", 0, none, "P", "T", 0, true, "work", ""⟩], [], "P", "T", none⟩
        60 "y" "Q" "U" "work").2.end_time = none ∧
    (create_session ⟨[⟨"x", 0, none, "P", "T", 0, true, "work", ""⟩], [], "P", "T", none⟩
        60 "y" "Q" "U" "work").1.sessions =
      [⟨"x", 0, none, "P", "T", 0, true, "work", ""⟩] ++
        [(create_session ⟨[⟨"x", 0, none, "P", "T", 0, true, "work", ""⟩], [], "P", "T", none⟩
            60 "y" "Q" "U" "work").2] ∧
    2 ≤ (((create_session ⟨[⟨"x", 0, none, "P", "T", 0, true, "work", ""⟩], [], "P", "T", none⟩
            60 "y" "Q" "U" "work").1.sessions).filter (fun s => s.is_active)).length :=
  create_session_no_exclusivity _ 60 "y" "Q" "U" "work"
    ⟨"x", 0, none, "P", "T", 0, true, "work", ""⟩ (by simp) rfl

/-- C4: every session produced or modified by `create_session`,
`stop_active_session` and `add_session` satisfies "`end_time` is null iff
`is_active`": creation yields an active session with no end time, stopping
yields a closed session with `end_time = now`, and `add_session` stores the
supplied end time with `is_active` exactly when no end time is supplied. -/
theorem store_operations_end_time_invariant (st : Store) (now now_ms start : Nat)
    (endt : Option Nat) (newId project task ty note : String) :
    ((create_session st now newId project task ty).2.end_time = none ∧
     (create_session st now newId project task ty).2.is_active = true) ∧
    ((stop_active_session st now).2.elim True
      (fun s => s.end_time = some now ∧ s.is_active = false)) ∧
    ((add_session st now_ms start endt project task ty note).2.end_time = endt ∧
     (add_session st now_ms start endt project task ty note).2.is_active =
       endt.isNone) := by
  refine ⟨⟨rfl, rfl⟩, ?_, rfl, rfl⟩
  show (stopFirstActive st.sessions now).2.elim True _
  induction st.sessions with
  | nil => simp [stopFirstActive]
  | cons s rest ih =>
    rw [stopFirstActive_cons]
    by_cases h : s.is_active
    · simp [h, closeSession]
    · simpa [h] using ih

/-- C5: with no active session, `stop_active_session` returns `None` and the
list is untouched; with an active session present, the first active one gets
`end_time = now`, `duration_seconds = now - start_time` and
`is_active = False`, it is returned, and every other session is unchanged. -/
theorem stop_active_session_spec (st : Store) (now : Nat) :
    ((∀ s ∈ st.sessions, s.is_active = false) →
      stop_active_session st now = (st, none)) ∧
    (∀ (a : List Session) (x : Session) (b : List Session),
      st.sessions = a ++ x :: b → x.is_active = true →
      (∀ s ∈ a, s.is_active = false) →
      stop_active_session st now =
        ({ st with sessions := a ++ closeSession x now :: b },
         some (closeSession x now))) := by
  constructor
  · intro h
    show ({ st with sessions := (stopFirstActive st.sessions now).1 },
          (stopFirstActive st.sessions now).2) = (st, none)
    rw [stopFirstActive_of_no_active st.sessions now h]
  · intro a x b hs hx ha
    show ({ st with sessions := (stopFirstActive st.sessions now).1 },
          (stopFirstActive st.sessions now).2) = _
    rw [hs, stopFirstActive_found a x b now hx ha]

/-- C5 witness: stopping with no active session is a no-op returning `None`;
stopping with an active session closes exactly it. -/
theorem stop_active_session_spec_witness :
    stop_active_session ⟨[⟨"c", 0, some 30, "P", "T", 30, false, "work", ""⟩], [], "P", "T", none⟩
        50 = (⟨[⟨"c", 0, some 30, "P", "T", 30, false, "work", ""⟩], [], "P", "T", none⟩, none) ∧
    stop_active_session ⟨[⟨"x", 10, none, "P", "T", 0, true, "work", ""⟩], [], "P", "T", none⟩
        50 = (⟨[closeSession ⟨"x", 10, none, "P", "T", 0, true, "work", ""⟩ 50], [], "P", "T", none⟩,
              some (closeSession ⟨"x", 10, none, "P", "T", 0, true, "work", ""⟩ 50)) :=
  ⟨(stop_active_session_spec _ 50).1 (by simp),
   (stop_active_session_spec _ 50).2 [] ⟨"x", 10, none, "P", "T", 0, true, "work", ""⟩ []
     rfl rfl (by simp)⟩

/-- C10: `remove_session` with an unmatched id reports `False` and leaves the
list unchanged; with a matched id it removes exactly the first matching
session, preserving all others in order, and reports `True`. -/
theorem remove_session_spec (sessions : List Session) (sid : String) :
    ((∀ s ∈ sessions, s.id ≠ sid) →
      remove_session sessions sid = (sessions, false)) ∧
    (∀ (a : List Session) (x : Session) (b : List Session),
      sessions = a ++ x :: b → x.id = sid → (∀ s ∈ a, s.id ≠ sid) →
      remove_session sessions sid = (a ++ b, true)) := by
  have hcons : ∀ (s : Session) (rest : List Session),
      remove_session (s :: rest) sid =
        if s.id = sid then (rest, true)
        else (s :: (remove_session rest sid).1, (remove_session rest sid).2) := by
    intro s rest
    by_cases h : s.id = sid <;> simp [remove_session, h]
  constructor
  · intro h
    induction sessions with
    | nil => rfl
    | cons s rest ih =>
      have hs : s.id ≠ sid := h s (List.mem_cons_self s rest)
      rw [hcons, if_neg hs, ih (fun t ht => h t (List.mem_cons_of_mem s ht))]
  · intro a x b hs hx ha
    subst hs
    induction a with
    | nil => simp [remove_session, hx]
    | cons s rest ih =>
      have hne : s.id ≠ sid := ha s (List.mem_cons_self s rest)
      rw [List.cons_append, hcons, if_neg hne,
          ih (fun t ht => ha t (List.mem_cons_of_mem s ht))]
      rfl

/-- C10 witness: removing a missing id is a no-op reporting `False`; removing
a present id drops exactly the first match and reports `True`. -/
theorem remove_session_spec_witness :
    remove_session [⟨"a", 0, some 10, "P", "T", 10, false, "work", ""⟩] "zz" =
      ([⟨"a", 0, some 10, "P", "T", 10, false, "work", ""⟩], false) ∧
    remove_session [⟨"a", 0, some 10, "P", "T", 10, false, "work", ""⟩,
                    ⟨"b", 20, some 30, "P", "T", 10, false, "work", ""⟩] "b" =
      ([⟨"a", 0, some 10, "P", "T", 10, false, "work", ""⟩], true) :=
  ⟨(remove_session_spec _ "zz").1 (by simp),
   (remove_session_spec _ "b").2 [⟨"a", 0, some 10, "P", "T", 10, false, "work", ""⟩]
     ⟨"b", 20, some 30, "P", "T", 10, false, "work", ""⟩ [] rfl rfl (by simp)⟩

/-- C1 counterexample: for the closed today-session `doubleCountedSession`
(duration 100 s), `get_today_work_seconds + get_today_break_seconds` yields
200, not the 100 an exact dual-tag partition demands — the session is counted
twice, once by each accumulator. -/
theorem today_seconds_double_count :
    (∀ s ∈ [doubleCountedSession], s.end_time.isSome = true) ∧
    (∀ s ∈ [doubleCountedSession], dateOf s.start_time = 0) ∧
    get_today_work_seconds [doubleCountedSession] 0 200 +
      get_today_break_seconds [doubleCountedSession] 0 200 = 200 ∧
    ([doubleCountedSession].map (fun s => s.duration_seconds)).sum = 100 := by
  refine ⟨by decide, by decide, ?_, by decide⟩
  rw [get_today_work_seconds_eq_filter]
  decide

/-- C1 amended: over closed sessions of today whose `session_type` is `work`
or `break` and where no work-typed session carries the sentinel project
`"BREAK"`, `get_today_work_seconds + get_today_break_seconds` equals the sum
of all durations, each session counted exactly once under the dual-tag
rule. -/
theorem today_seconds_partition (sessions : List Session) (today now : Nat)
    (hclosed : ∀ s ∈ sessions, s.end_time.isSome = true)
    (htoday : ∀ s ∈ sessions, dateOf s.start_time = today)
    (htype : ∀ s ∈ sessions, s.session_type = "work" ∨ s.session_type = "break")
    (hsep : ∀ s ∈ sessions, s.session_type = "work" → s.project ≠ "BREAK") :
    get_today_work_seconds sessions today now +
      get_today_break_seconds sessions today now =
      (sessions.map (fun s => s.duration_seconds)).sum := by
  rw [get_today_work_seconds_eq_filter]
  unfold get_today_break_seconds
  induction sessions with
  | nil => simp
  | cons s rest ih =>
    have hcs := hclosed s (List.mem_cons_self s rest)
    have hts := htoday s (List.mem_cons_self s rest)
    have hys := htype s (List.mem_cons_self s rest)
    have hss := hsep s (List.mem_cons_self s rest)
    have ih' := ih (fun t ht => hclosed t (List.mem_cons_of_mem s ht))
      (fun t ht => htoday t (List.mem_cons_of_mem s ht))
      (fun t ht => htype t (List.mem_cons_of_mem s ht))
      (fun t ht => hsep t (List.mem_cons_of_mem s ht))
    rcases hys with hw | hb
    · have hcond1 : (dateOf s.start_time == today && s.session_type == "work") = true := by
        simp [hts, hw]
      have hcond2 : (dateOf s.start_time == today &&
          (s.session_type == "break" || s.project == "BREAK")) = false := by
        simp [hw, hss hw]
      simp only [List.filter_cons, hcond1, hcond2, if_true, if_false, ite_true,
        ite_false, Bool.false_eq_true, List.map_cons, List.sum_cons,
        sessionSeconds_of_closed s now hcs]
      omega
    · have hcond1 : (dateOf s.start_time == today && s.session_type == "work") = false := by
        simp [hb]
      have hcond2 : (dateOf s.start_time == today &&
          (s.session_type == "break" || s.project == "BREAK")) = true := by
        simp [hts, hb]
      simp only [List.filter_cons, hcond1, hcond2, if_true, if_false, ite_true,
        ite_false, Bool.false_eq_true, List.map_cons, List.sum_cons,
        sessionSeconds_of_closed s now hcs]
      omega

/-- C1 witness: two closed sessions of today, one work, one break, sum to the
total duration exactly once each. -/
theorem today_seconds_partition_witness :
    get_today_work_seconds
        [⟨"w", 0, some 100, "P", "T", 100, false, "work", ""⟩,
         ⟨"b", 200, some 260, "BREAK", "pause", 60, false, "break", ""⟩] 0 300 +
      get_today_break_seconds
        [⟨"w", 0, some 100, "P", "T", 100, false, "work", ""⟩,
         ⟨"b", 200, some 260, "BREAK", "pause", 60, false, "break", ""⟩] 0 300 =
      ([⟨"w", 0, some 100, "P", "T", 100, false, "work", ""⟩,
        ⟨"b", 200, some 260, "BREAK", "pause", 60, false, "break", ""⟩].map
          (fun s => (s : Session).duration_seconds)).sum :=
  today_seconds_partition _ 0 300 (by decide) (by decide) (by decide) (by decide)

/-- C2 counterexample: on a day with only break sessions and a configured
target of 0 hours (e.g. a Saturday), `work_hours >= target` holds yet the
status is `⭕ No work`, not `✅ Target reached`: the "target reached iff
work_hours >= target" reading fails because the no-work test is checked
first. -/
theorem eval_status_zero_target :
    eval_work_hours breakOnlyDay = 0 ∧
    eval_target [("saturday", 0)] "saturday" = 0 ∧
    eval_target [("saturday", 0)] "saturday" ≤ eval_work_hours breakOnlyDay ∧
    eval_status (eval_work_hours breakOnlyDay)
        (eval_target [("saturday", 0)] "saturday") ≠ "✅ Target reached" := by
  decide

/-- C2 amended: for every day row, the status is `⭕ No work` iff
`work_hours = 0`; it is `✅ Target reached` iff `work_hours` is nonzero and
at least the weekday target; and it is `❌ Below target` iff `work_hours` is
nonzero and below the target. -/
theorem eval_status_classification (day_sessions : List Session)
    (work_hours_config : List (String × ℚ)) (weekday_name : String) :
    (eval_status (eval_work_hours day_sessions)
        (eval_target work_hours_config weekday_name) = "⭕ No work" ↔
      eval_work_hours day_sessions = 0) ∧
    (eval_status (eval_work_hours day_sessions)
        (eval_target work_hours_config weekday_name) = "✅ Target reached" ↔
      (eval_work_hours day_sessions ≠ 0 ∧
       eval_target work_hours_config weekday_name ≤ eval_work_hours day_sessions)) ∧
    (eval_status (eval_work_hours day_sessions)
        (eval_target work_hours_config weekday_name) = "❌ Below target" ↔
      (eval_work_hours day_sessions ≠ 0 ∧
       eval_work_hours day_sessions < eval_target work_hours_config weekday_name)) := by
  generalize eval_work_hours day_sessions = wh
  generalize eval_target work_hours_config weekday_name = t
  unfold eval_status
  by_cases h0 : wh = 0
  · rw [if_pos h0]
    refine ⟨⟨fun _ => h0, fun _ => rfl⟩,
            ⟨fun h => absurd h (by decide), fun h => absurd h0 h.1⟩,
            ⟨fun h => absurd h (by decide), fun h => absurd h0 h.1⟩⟩
  · by_cases hge : wh ≥ t
    · rw [if_neg h0, if_pos hge]
      refine ⟨⟨fun h => absurd h (by decide), fun h => absurd h h0⟩,
              ⟨fun _ => ⟨h0, hge⟩, fun _ => rfl⟩,
              ⟨fun h => absurd h (by decide), fun h => absurd hge (not_le.mpr h.2)⟩⟩
    · rw [if_neg h0, if_neg hge]
      refine ⟨⟨fun h => absurd h (by decide), fun h => absurd h h0⟩,
              ⟨fun h => absurd h (by decide), fun h => absurd h.2 hge⟩,
              ⟨fun _ => ⟨h0, not_le.mp hge⟩, fun _ => rfl⟩⟩

/-- C7: the recent-combinations update puts `"{project} - {task}"` first,
keeps the list duplicate-free (given a duplicate-free input), never exceeds
10 entries, and preserves the relative order of the retained older
entries. -/
theorem update_recent_combination_spec (recent : List String)
    (project task : String) (hnodup : recent.Nodup) :
    (update_recent_combination recent project task).head? =
      some (project ++ " - " ++ task) ∧
    (update_recent_combination recent project task).Nodup ∧
    (update_recent_combination recent project task).length ≤ 10 ∧
    (update_recent_combination recent project task).tail.Sublist recent := by
  simp only [update_recent_combination]
  by_cases hmem : (project ++ " - " ++ task) ∈ recent
  · rw [if_pos hmem]
    refine ⟨rfl, ?_, ?_, ?_⟩
    · exact ((List.nodup_cons.mpr
        ⟨hnodup.not_mem_erase, hnodup.erase _⟩).sublist (List.take_sublist _ _))
    · exact List.length_take_le _ _
    · show ((recent.erase (project ++ " - " ++ task)).take 9).Sublist recent
      exact (List.take_sublist _ _).trans (List.erase_sublist _ _)
  · rw [if_neg hmem]
    refine ⟨rfl, ?_, ?_, ?_⟩
    · exact ((List.nodup_cons.mpr ⟨hmem, hnodup⟩).sublist (List.take_sublist _ _))
    · exact List.length_take_le _ _
    · show (recent.take 9).Sublist recent
      exact List.take_sublist _ _

/-- C7 witness: updating a three-entry duplicate-free list with an already
present combination moves it to the front without duplication. -/
theorem update_recent_combination_spec_witness :
    (update_recent_combination ["a - b", "p - t", "c - d"] "p" "t").head? =
      some ("p" ++ " - " ++ "t") ∧
    (update_recent_combination ["a - b", "p - t", "c - d"] "p" "t").Nodup ∧
    (update_recent_combination ["a - b", "p - t", "c - d"] "p" "t").length ≤ 10 ∧
    (update_recent_combination ["a - b", "p - t", "c - d"] "p" "t").tail.Sublist
      ["a - b", "p - t", "c - d"] :=
  update_recent_combination_spec ["a - b", "p - t", "c - d"] "p" "t" (by decide)

/-- C9 counterexample: `JsonDatabase.load_config` on a malformed config file
constructs the default document in memory but does not persist it — the
`except` branch has no `save_config()` call, unlike the missing-file
branch. -/
theorem jdb_load_config_malformed_not_persisted :
    (jdb_load_config ReadResult.malformed).1 = jdb_default ∧
    (jdb_load_config ReadResult.malformed).2 = false := ⟨rfl, rfl⟩

/-- C9 amended: `ConfigManager.load_config` constructs and persists the
default document whenever the file is missing, malformed/empty, or fails the
required-key check; `JsonDatabase.load_config` persists the default only when
the file is missing — on a malformed file it falls back to the default in
memory without persisting, and a parsed file is never persisted (it only gets
`auto_split_minutes` injected in memory). -/
theorem load_config_default_persistence (c : CMConfig)
    (hc : cm_validate c = false) :
    cm_load_config ReadResult.missing = (cm_default, true) ∧
    cm_load_config ReadResult.malformed = (cm_default, true) ∧
    cm_load_config (ReadResult.ok c) = (cm_default, true) ∧
    jdb_load_config ReadResult.missing = (jdb_default, true) ∧
    (jdb_load_config ReadResult.malformed).1 = jdb_default ∧
    (jdb_load_config ReadResult.malformed).2 = false ∧
    (∀ d : JDConfig, (jdb_load_config (ReadResult.ok d)).2 = false) := by
  refine ⟨rfl, rfl, ?_, rfl, rfl, rfl, fun d => rfl⟩
  simp [cm_load_config, hc]

/-- C9 witness: a document missing the `work_hours` key triggers default
regeneration and persistence in `ConfigManager`. -/
theorem load_config_default_persistence_witness :
    cm_load_config ReadResult.missing = (cm_default, true) ∧
    cm_load_config ReadResult.malformed = (cm_default, true) ∧
    cm_load_config (ReadResult.ok ⟨false, true⟩) = (cm_default, true) ∧
    jdb_load_config ReadResult.missing = (jdb_default, true) ∧
    (jdb_load_config ReadResult.malformed).1 = jdb_default ∧
    (jdb_load_config ReadResult.malformed).2 = false ∧
    (∀ d : JDConfig, (jdb_load_config (ReadResult.ok d)).2 = false) :=
  load_config_default_persistence ⟨false, true⟩ rfl

/-- C6: quick-switch with an active session: at or above the configured
auto-split threshold (default 5 minutes when the key is absent) the active
session is closed and a fresh active session for the new project/task is
appended, typed `'break'` exactly when the project is `"BREAK"`; below the
threshold no session is created or closed — only the active session's
`project`/`task` fields change in place. -/
theorem quick_switch_project_spec (st : Store) (now : Nat)
    (newId project task : String) (a : List Session) (x : Session)
    (b : List Session) (hs : st.sessions = a ++ x :: b)
    (hx : x.is_active = true) (ha : ∀ s ∈ a, s.is_active = false) :
    (st.auto_split_minutes.getD 5 ≤
        ((((now : Int) - (x.start_time : Int) : Int) : ℚ) / 60) →
      (quick_switch_project st now newId project task).sessions =
        (a ++ closeSession x now :: b) ++
          [{ id := newId, start_time := now, end_time := none,
             project := project, task := task, duration_seconds := 0,
             is_active := true,
             session_type := if project == "BREAK" then "break" else "work",
             note := "" }]) ∧
    ((((now : Int) - (x.start_time : Int) : Int) : ℚ) / 60 <
        st.auto_split_minutes.getD 5 →
      (quick_switch_project st now newId project task).sessions =
        a ++ { x with project := project, task := task } :: b) := by
  have hfind : get_active_session st.sessions = some x := by
    rw [hs]; exact get_active_session_found a x b hx ha
  constructor
  · intro hth
    unfold quick_switch_project
    rw [hfind]
    simp only [decide_eq_true hth, if_true]
    show ((create_session _ now newId project task _).1.sessions) = _
    simp only [create_session, set_active_project_task]
    show ((stop_active_session st now).1.sessions ++ _) = _
    have : (stop_active_session st now).1.sessions =
        a ++ closeSession x now :: b := by
      show (stopFirstActive st.sessions now).1 = _
      rw [hs, stopFirstActive_found a x b now hx ha]
    rw [this]
  · intro hth
    unfold quick_switch_project
    rw [hfind]
    simp only [decide_eq_false (not_le.mpr hth), if_false, Bool.false_eq_true,
      ite_false]
    show (updateFirstActive st.sessions project task) = _
    rw [hs, updateFirstActive_found a x b project task hx ha]

/-- C6 witness: with the default threshold (absent config key), a switch
after 400 s (≈6.7 min ≥ 5 min) splits: the active session is closed and a new
one opened; a switch after 100 s (<5 min) only rewrites `project`/`task` in
place. -/
theorem quick_switch_project_spec_witness :
    (quick_switch_project
        ⟨[⟨"x", 0, none, "P", "T", 0, true, "work", ""⟩], [], "P", "T", none⟩
        400 "n" "Q" "U").sessions =
      ([] ++ closeSession ⟨"x", 0, none, "P", "T", 0, true, "work", ""⟩ 400 :: []) ++
        [{ id := "n", start_time := 400, end_time := none, project := "Q",
           task := "U", duration_seconds := 0, is_active := true,
           session_type := if "Q" == "BREAK" then "break" else "work",
           note := "" }] ∧
    (quick_switch_project
        ⟨[⟨"x", 0, none, "P", "T", 0, true, "work", ""⟩], [], "P", "T", none⟩
        100 "n" "Q" "U").sessions =
      [] ++ { (⟨"x", 0, none, "P", "T", 0, true, "work", ""⟩ : Session) with
              project := "Q", task := "U" } :: [] :=
  ⟨(quick_switch_project_spec _ 400 "n" "Q" "U" []
      ⟨"x", 0, none, "P", "T", 0, true, "work", ""⟩ [] rfl rfl (by simp)).1
      (by norm_num),
   (quick_switch_project_spec _ 100 "n" "Q" "U" []
      ⟨"x", 0, none, "P", "T", 0, true, "work", ""⟩ [] rfl rfl (by simp)).2
      (by norm_num)⟩

theorem digitVal_digitChar : ∀ d : Nat, d < 10 →
    digitVal (Nat.digitChar d) = some d := by decide

theorem parseFixed_pad (w : Nat) : ∀ (acc n : Nat) (rest : List Char),
    n < 10 ^ w →
    parseFixed acc w (padDigits w n ++ rest) = some (acc * 10 ^ w + n, rest) := by
  induction w with
  | zero =>
    intro acc n rest h
    have hn : n = 0 := by omega
    subst hn
    simp [padDigits, parseFixed]
  | succ w ih =>
    intro acc n rest h
    have hpow : 0 < 10 ^ w := Nat.pos_pow_of_pos w (by norm_num)
    have hd : n / 10 ^ w < 10 := by
      rw [Nat.div_lt_iff_lt_mul hpow]
      calc n < 10 ^ (w + 1) := h
        _ = 10 * 10 ^ w := by ring
    simp only [padDigits, parseFixed, digitVal_digitChar _ hd, List.cons_append,
      List.append_eq]
    rw [ih (acc * 10 + n / 10 ^ w) (n % 10 ^ w) rest (Nat.mod_lt _ hpow)]
    congr 2
    conv_rhs => rw [← Nat.div_add_mod n (10 ^ w)]
    ring

theorem parseUsec_nil : parseUsec [] = some 0 := rfl

theorem parseUsec_dot (l : List Char) :
    parseUsec ('.' :: l) =
      (parseFixed 0 6 l).bind fun x => if x.2 = [] then some x.1 else none := rfl

theorem expectChar_cons_self (c : Char) (cs : List Char) :
    expectChar c (c :: cs) = some cs := by
  simp [expectChar]

theorem daysInMonth_le (y m : Nat) : daysInMonth y m ≤ 31 := by
  unfold daysInMonth
  split_ifs <;> omega

set_option maxHeartbeats 2000000 in
theorem fromisoformat_isoformat (d : PyDateTime) (h : ValidDT d) :
    fromisoformat (isoformat d) = some d := by
  obtain ⟨y, mo, da, ho, mi, se, us⟩ := d
  obtain ⟨h1, h2, h3, h4, h5, h6, h7, h8, h9, h10⟩ := h
  simp only at h1 h2 h3 h4 h5 h6 h7 h8 h9 h10
  have hvalid : ValidDT ⟨y, mo, da, ho, mi, se, us⟩ :=
    ⟨h1, h2, h3, h4, h5, h6, h7, h8, h9, h10⟩
  have hda : da ≤ 31 := le_trans h6 (daysInMonth_le y mo)
  by_cases hus : us = 0
  · subst hus
    show fromisoChars (padDigits 4 y ++ '-' :: padDigits 2 mo ++
      '-' :: padDigits 2 da ++ 'T' :: padDigits 2 ho ++ ':' :: padDigits 2 mi ++
      ':' :: padDigits 2 se) = _
    unfold fromisoChars
    simp only [List.append_assoc, List.cons_append]
    rw [parseFixed_pad 4 0 y _ (by omega)]
    simp only [Option.some_bind, Nat.zero_mul, Nat.zero_add]
    rw [expectChar_cons_self]
    simp only [Option.some_bind]
    rw [parseFixed_pad 2 0 mo _ (by omega)]
    simp only [Option.some_bind, Nat.zero_mul, Nat.zero_add]
    rw [expectChar_cons_self]
    simp only [Option.some_bind]
    rw [parseFixed_pad 2 0 da _ (by omega)]
    simp only [Option.some_bind, Nat.zero_mul, Nat.zero_add]
    rw [expectChar_cons_self]
    simp only [Option.some_bind]
    rw [parseFixed_pad 2 0 ho _ (by omega)]
    simp only [Option.some_bind, Nat.zero_mul, Nat.zero_add]
    rw [expectChar_cons_self]
    simp only [Option.some_bind]
    rw [parseFixed_pad 2 0 mi _ (by omega)]
    simp only [Option.some_bind, Nat.zero_mul, Nat.zero_add]
    rw [expectChar_cons_self]
    simp only [Option.some_bind]
    rw [show padDigits 2 se = padDigits 2 se ++ [] from (List.append_nil _).symm,
        parseFixed_pad 2 0 se [] (by omega)]
    simp only [Option.some_bind, Nat.zero_mul, Nat.zero_add, parseUsec_nil]
    show (if ValidDT ⟨y, mo, da, ho, mi, se, 0⟩ then
        some (⟨y, mo, da, ho, mi, se, 0⟩ : PyDateTime) else none) = _
    rw [if_pos hvalid]
  · have hiso : isoformat ⟨y, mo, da, ho, mi, se, us⟩ =
        String.mk ((padDigits 4 y ++ '-' :: padDigits 2 mo ++
          '-' :: padDigits 2 da ++ 'T' :: padDigits 2 ho ++
          ':' :: padDigits 2 mi ++ ':' :: padDigits 2 se) ++
          '.' :: padDigits 6 us) := by
      simp only [isoformat]
      rw [if_neg hus]
    unfold fromisoformat
    rw [hiso]
    show fromisoChars ((padDigits 4 y ++ '-' :: padDigits 2 mo ++
      '-' :: padDigits 2 da ++ 'T' :: padDigits 2 ho ++ ':' :: padDigits 2 mi ++
      ':' :: padDigits 2 se) ++ '.' :: padDigits 6 us) = _
    unfold fromisoChars
    simp only [List.append_assoc, List.cons_append]
    rw [parseFixed_pad 4 0 y _ (by omega)]
    simp only [Option.some_bind, Nat.zero_mul, Nat.zero_add]
    rw [expectChar_cons_self]
    simp only [Option.some_bind]
    rw [parseFixed_pad 2 0 mo _ (by omega)]
    simp only [Option.some_bind, Nat.zero_mul, Nat.zero_add]
    rw [expectChar_cons_self]
    simp only [Option.some_bind]
    rw [parseFixed_pad 2 0 da _ (by omega)]
    simp only [Option.some_bind, Nat.zero_mul, Nat.zero_add]
    rw [expectChar_cons_self]
    simp only [Option.some_bind]
    rw [parseFixed_pad 2 0 ho _ (by omega)]
    simp only [Option.some_bind, Nat.zero_mul, Nat.zero_add]
    rw [expectChar_cons_self]
    simp only [Option.some_bind]
    rw [parseFixed_pad 2 0 mi _ (by omega)]
    simp only [Option.some_bind, Nat.zero_mul, Nat.zero_add]
    rw [expectChar_cons_self]
    simp only [Option.some_bind]
    rw [parseFixed_pad 2 0 se _ (by omega)]
    simp only [Option.some_bind, Nat.zero_mul, Nat.zero_add, parseUsec_dot]
    rw [show padDigits 6 us = padDigits 6 us ++ [] from (List.append_nil _).symm,
        parseFixed_pad 6 0 us [] (by omega)]
    simp only [Option.some_bind, Nat.zero_mul, Nat.zero_add]
    show ((if ([] : List Char) = [] then some us else none).bind fun usec =>
        (if ValidDT ⟨y, mo, da, ho, mi, se, usec⟩ then
          some (⟨y, mo, da, ho, mi, se, usec⟩ : PyDateTime) else none)) = _
    rw [if_pos rfl]
    simp only [Option.some_bind]
    rw [if_pos hvalid]

/-- C8: serializing a session and deserializing it back is the identity:
`TimeSession.from_dict (s.to_dict) = some s`, field for field — ISO-8601
timestamp text round-trips to the same datetime and a null `end_time`
round-trips to null. -/
theorem from_dict_to_dict_roundtrip (s : TimeSession)
    (h1 : ValidDT s.start_time) (h2 : ∀ e ∈ s.end_time, ValidDT e) :
    TimeSession.from_dict (TimeSession.to_dict s) = some s := by
  obtain ⟨i, st, et, pr, ta, du, ia, ty, no⟩ := s
  cases et with
  | none =>
    show TimeSession.from_dict ⟨i, isoformat st, none, pr, ta, du, ia, ty, no⟩ =
      some ⟨i, st, none, pr, ta, du, ia, ty, no⟩
    unfold TimeSession.from_dict
    rw [fromisoformat_isoformat st h1]
    rfl
  | some e =>
    have hve : ValidDT e := h2 e rfl
    show TimeSession.from_dict
        ⟨i, isoformat st, some (isoformat e), pr, ta, du, ia, ty, no⟩ =
      some ⟨i, st, some e, pr, ta, du, ia, ty, no⟩
    unfold TimeSession.from_dict
    rw [fromisoformat_isoformat st h1]
    simp only [Option.some_bind]
    rw [fromisoformat_isoformat e hve]
    rfl

/-- C8 witness: a concrete session (with microseconds in the end timestamp)
survives the `to_dict`/`from_dict` round trip. -/
theorem from_dict_to_dict_roundtrip_witness :
    TimeSession.from_dict
        (TimeSession.to_dict
          ⟨"id-1", ⟨2024, 3, 15, 9, 30, 0, 0⟩, some ⟨2024, 3, 15, 12, 0, 5, 123456⟩,
           "General", "Daily Work", 9005, false, "work", "note"⟩) =
      some ⟨"id-1", ⟨2024, 3, 15, 9, 30, 0, 0⟩, some ⟨2024, 3, 15, 12, 0, 5, 123456⟩,
            "General", "Daily Work", 9005, false, "work", "note"⟩ :=
  from_dict_to_dict_roundtrip _ (by decide) (by decide)
